import Mathlib

/-!
Shallow embedding of the job-search front end of the Job_Finder repository:
the filter state held by the `JobSearch` page, its URL synchronisation
effect, the search handlers, the `apiService.searchJobs` query-string
builder, and the react-query client configuration.  Stateful handler code
is embedded as explicit state-passing functions; JS string operations
(`split(',')`, `join(',')`, the `/#\w+/g` regex scan) are embedded as
executable functions over `List Char`.
-/

namespace JobFinder

/-! ## JS string primitives used by the source -/

/-- JS `\w` word-character class (ASCII letters, digits, underscore). -/
def isWordChar (c : Char) : Bool := c.isAlphanum || c = '_'

/-- JS `String.prototype.split(',')` on the underlying character list:
splits at every comma; the empty string yields `[[]]`. -/
def splitCommaAux : List Char → List Char → List (List Char)
  | [], acc => [acc.reverse]
  | c :: rest, acc =>
    if c = ',' then acc.reverse :: splitCommaAux rest []
    else splitCommaAux rest (c :: acc)

/-- JS `s.split(',')`. -/
def splitComma (s : String) : List String :=
  (splitCommaAux s.data []).map String.mk

/-- JS `arr.join(',')`. -/
def joinComma (l : List String) : String :=
  String.mk (List.intercalate [','] (l.map String.data))

/-- The global regex scan `searchQuery.match(/#\w+/g)` followed by
`tag.replace('#', '')`: left-to-right, each `#` followed by a maximal
non-empty run of word characters yields that run (the `#` stripped); the
scan resumes after the run.  `fuel` only forces structural recursion; one
unit is spent per character inspected, so `fuel = l.length` suffices. -/
def scanHashtagsF : Nat → List Char → List (List Char)
  | 0, _ => []
  | _ + 1, [] => []
  | fuel + 1, c :: rest =>
    if c = '#' then
      match rest.takeWhile isWordChar with
      | [] => scanHashtagsF fuel rest
      | run => run :: scanHashtagsF fuel (rest.drop run.length)
    else scanHashtagsF fuel rest

/-- The regex scan over a character list. -/
def scanHashtags (l : List Char) : List (List Char) :=
  scanHashtagsF l.length l

/-- `handleSearch`'s hashtag extraction (`cleanedHashtags` in the source):
`(searchQuery.match(/#\w+/g) || []).map(tag => tag.replace('#', ''))`. -/
def cleanedHashtags (s : String) : List String :=
  (scanHashtags s.data).map String.mk

/-! ## Filter state (JobSearch page, `SearchFilters` interface) -/

/-- The `SearchFilters` interface of the `JobSearch` page. -/
structure SearchFilters where
  hashtags : List String
  sources : List String
  timeFilter : String
  location : String
  jobType : String
  experienceLevel : String
  salaryMin : Option Int
  salaryMax : Option Int
  skills : List String
  hasContacts : Bool
  remoteOnly : Bool
deriving Repr, DecidableEq

/-- A `Partial<SearchFilters>` patch: absent fields are `none`. -/
structure FilterPatch where
  hashtags : Option (List String) := none
  sources : Option (List String) := none
  timeFilter : Option String := none
  location : Option String := none
  jobType : Option String := none
  experienceLevel : Option String := none
  salaryMin : Option (Option Int) := none
  salaryMax : Option (Option Int) := none
  skills : Option (List String) := none
  hasContacts : Option Bool := none
  remoteOnly : Option Bool := none
deriving Repr, DecidableEq

/-- The JS object spread `{ ...prev, ...newFilters }`: fields present in
the patch override, all others are kept. -/
def applyPatch (prev : SearchFilters) (p : FilterPatch) : SearchFilters where
  hashtags := p.hashtags.getD prev.hashtags
  sources := p.sources.getD prev.sources
  timeFilter := p.timeFilter.getD prev.timeFilter
  location := p.location.getD prev.location
  jobType := p.jobType.getD prev.jobType
  experienceLevel := p.experienceLevel.getD prev.experienceLevel
  salaryMin := p.salaryMin.getD prev.salaryMin
  salaryMax := p.salaryMax.getD prev.salaryMax
  skills := p.skills.getD prev.skills
  hasContacts := p.hasContacts.getD prev.hasContacts
  remoteOnly := p.remoteOnly.getD prev.remoteOnly

/-- The initial-state computation of the `JobSearch` page: each recognised
URL parameter is read with `searchParams.get(...)`, JS `||` falls back on
`null` and on the empty string, and `get('hashtags')?.split(',') || []`
only falls back when the parameter is absent. -/
def initializeFilters (params : List (String × String)) : SearchFilters where
  hashtags :=
    match params.lookup "hashtags" with
    | some s => splitComma s
    | none => []
  sources := ["linkedin", "naukri", "indeed", "twitter"]
  timeFilter :=
    match params.lookup "timeFilter" with
    | some s => if s = "" then "24h" else s
    | none => "24h"
  location :=
    match params.lookup "location" with
    | some s => s
    | none => ""
  jobType :=
    match params.lookup "jobType" with
    | some s => s
    | none => ""
  experienceLevel :=
    match params.lookup "experienceLevel" with
    | some s => s
    | none => ""
  salaryMin := none
  salaryMax := none
  skills := []
  hasContacts := false
  remoteOnly := false

/-- The filter state at mount with no URL parameters present. -/
def defaultFilters : SearchFilters := initializeFilters []

/-- A concrete confirmed filter state used as a test vector: the spec's
end-to-end scenario (`hashtags=python,remote`, `timeFilter=7d`) plus a
location. -/
def scenarioFilters : SearchFilters :=
  { defaultFilters with hashtags := ["python", "remote"], timeFilter := "7d", location := "Mumbai" }

/-! ## URL synchronizer (the `useEffect` over `filters`) -/

/-- The parameter object built by the URL-sync effect: `params.set` is
called for `hashtags` only when non-empty, for `timeFilter` only when it
differs from `'24h'`, and for `location`/`jobType`/`experienceLevel` only
when truthy (non-empty). -/
def buildUrlParams (f : SearchFilters) : List (String × String) :=
  (if f.hashtags.length > 0 then [("hashtags", joinComma f.hashtags)] else []) ++
  (if f.timeFilter ≠ "24h" then [("timeFilter", f.timeFilter)] else []) ++
  (if f.location ≠ "" then [("location", f.location)] else []) ++
  (if f.jobType ≠ "" then [("jobType", f.jobType)] else []) ++
  (if f.experienceLevel ≠ "" then [("experienceLevel", f.experienceLevel)] else [])

/-- One run of the URL-sync effect body: it builds the params from the
current filters and calls `setSearchParams(params)` unconditionally; the
URL's current query parameters are never consulted. `some w` records the
write that is performed. -/
def urlSyncEffect (f : SearchFilters) (_currentParams : List (String × String)) :
    Option (List (String × String)) :=
  some (buildUrlParams f)

/-! ## JobSearch page handlers -/

/-- The component state the handlers touch. -/
structure JobSearchState where
  filters : SearchFilters
  sortBy : String
  currentPage : Nat
  isSearching : Bool
deriving Repr, DecidableEq

/-- The handler `handleFilterChange(newFilters)`: spreads the patch over
the previous filters and resets `currentPage` to 1. -/
def handleFilterChange (p : FilterPatch) (s : JobSearchState) : JobSearchState :=
  { s with filters := applyPatch s.filters p, currentPage := 1 }

/-- The handler `handleSearch(searchQuery?)` up to and including its state updates:
when `searchQuery` is truthy (present and non-empty) the extracted
hashtags replace `filters.hashtags`; `currentPage` is set to 1; the
`finally` block leaves `isSearching` false. -/
def handleSearch (searchQuery : Option String) (s : JobSearchState) : JobSearchState :=
  let s1 :=
    match searchQuery with
    | some q =>
      if q = "" then s
      else { s with filters := { s.filters with hashtags := cleanedHashtags q } }
    | none => s
  { s1 with currentPage := 1, isSearching := false }

/-! ## apiService.searchJobs (the Axios API client) -/

/-- The parameter object accepted by `apiService.searchJobs`; every field
is optional. -/
structure SearchJobsParams where
  q : Option String := none
  hashtags : Option (List String) := none
  sources : Option (List String) := none
  timeFilter : Option String := none
  location : Option String := none
  jobType : Option String := none
  experienceLevel : Option String := none
  salaryMin : Option Nat := none
  salaryMax : Option Nat := none
  skills : Option (List String) := none
  sortBy : Option String := none
  page : Option Nat := none
  limit : Option Nat := none
deriving Repr

/-- The `URLSearchParams` built by `searchJobs`, in `append` order:
`hashtags` when present and non-empty, `q` when truthy, `limit` when
truthy, and `offset = (page - 1) * (limit || 20)` when `page` is truthy.
No other field of the parameter object is ever serialized. -/
def searchJobsQuery (p : SearchJobsParams) : List (String × String) :=
  (match p.hashtags with
   | some hs => if hs.length ≠ 0 then [("hashtags", joinComma hs)] else []
   | none => []) ++
  (match p.q with
   | some q => if q ≠ "" then [("q", q)] else []
   | none => []) ++
  (match p.limit with
   | some l => if l ≠ 0 then [("limit", toString l)] else []
   | none => []) ++
  (match p.page with
   | some pg =>
     if pg ≠ 0 then
       [("offset", toString ((pg - 1) *
         (match p.limit with
          | some l => if l ≠ 0 then l else 20
          | none => 20)))]
     else []
   | none => [])

/-! ## Query client configuration and Axios interceptor -/

/-- The react-query client's `defaultOptions.queries` set up in `App`. -/
structure QueryClientOptions where
  retry : Nat
  refetchOnWindowFocus : Bool
  staleTime : Nat
deriving Repr, DecidableEq

/-- The construction `new QueryClient` with `defaultOptions.queries` set
to `retry: 1`, `refetchOnWindowFocus: false`, `staleTime: 5 * 60 * 1000`. -/
def queryClientDefaultOptions : QueryClientOptions where
  retry := 1
  refetchOnWindowFocus := false
  staleTime := 5 * 60 * 1000

/-- Network attempts made for one submitted query under react-query's
`retry: n` policy: the initial attempt plus up to `n` automatic retries. -/
def maxNetworkAttempts (o : QueryClientOptions) : Nat := o.retry + 1

/-- The `apiClient` response interceptor's error arm: it logs and then
`return Promise.reject(error)` — the error is propagated unchanged, with
no retry and no substitution. -/
def interceptorOnError {ε : Type} (e : ε) : Except ε Unit := Except.error e

/-! ## Query Coordinator (modelled from the spec)

The staleness guard and the request-deduplication behaviour live in the
react-query library, not in this repository's sources; only their
configuration (`useQuery(['searchJobs', filters, sortBy, currentPage], ...)`)
is in the repository.  Per the spec's §3/§4.3 they are modelled explicitly
here. -/

/-- A job summary as consumed by the core (spec §6). -/
structure JobSummary where
  id : String
  title : String
  company : String
  location : String
  description : String
  skills : List String
  posted_at : String
  source : String
  salaryMin : Option Nat
  salaryMax : Option Nat
  salaryCurrency : Option String
deriving Repr, DecidableEq

/-- A search result page: `{ jobs, total }`. -/
structure SearchResult where
  jobs : List JobSummary
  total : Nat
deriving Repr, DecidableEq

/-- Modelled from the spec: the `QueryState` tagged variant of §3. -/
inductive QueryState where
  | idle
  | loading (requestId : Nat)
  | success (result : SearchResult) (requestId : Nat)
  | error (reason : String) (requestId : Nat)
deriving Repr, DecidableEq

/-- Outcome of a network request. -/
inductive Outcome where
  | ok (r : SearchResult)
  | err (reason : String)
deriving Repr, DecidableEq

/-- Modelled from the spec: the Query Coordinator's state — the monotone
request-id counter of §3 together with the applied `QueryState`. -/
structure CoordState where
  latestId : Nat
  query : QueryState
deriving Repr, DecidableEq

/-- Modelled from the spec: `submit` increments and captures a request id
and moves the state to `Loading` (spec §4.3's state machine). Returns the
new state and the captured id. -/
def submit (s : CoordState) : CoordState × Nat :=
  let i := s.latestId + 1
  ({ latestId := i, query := QueryState.loading i }, i)

/-- Modelled from the spec: a response for request `id` is applied to the
state only if `id` equals the latest issued request's id; otherwise it is
discarded (the stale-response guard of §3). -/
def resolveReq (s : CoordState) (id : Nat) (o : Outcome) : CoordState :=
  if id = s.latestId then
    { s with
      query :=
        match o with
        | Outcome.ok r => QueryState.success r id
        | Outcome.err m => QueryState.error m id }
  else s

/-- Modelled from the spec: `reset()` forces `Idle` and increments the id
so any outstanding response is stale. -/
def resetCoord (s : CoordState) : CoordState :=
  { latestId := s.latestId + 1, query := QueryState.idle }

/-- Events the coordinator processes. -/
inductive CoordEvent where
  | submitEv
  | resolveEv (id : Nat) (o : Outcome)
  | resetEv
deriving Repr

/-- One coordinator step. -/
def stepCoord (s : CoordState) : CoordEvent → CoordState
  | CoordEvent.submitEv => (submit s).1
  | CoordEvent.resolveEv id o => resolveReq s id o
  | CoordEvent.resetEv => resetCoord s

/-- The request id recorded in the applied query state, if any. -/
def appliedId : QueryState → Option Nat
  | QueryState.idle => none
  | QueryState.loading i => some i
  | QueryState.success _ i => some i
  | QueryState.error _ i => some i

/-- The applied state reflects only the most recently submitted request. -/
def reflectsLatest (s : CoordState) : Prop :=
  ∀ i, appliedId s.query = some i → i = s.latestId

/-- Modelled from the spec: a `SearchRequest` — filters plus sort, 1-based
page and page size (spec §3). -/
structure SearchRequest where
  filters : SearchFilters
  sortBy : String
  page : Nat
  pageSize : Nat
deriving Repr, DecidableEq

/-- Modelled from the spec: the coordinator's dedup bookkeeping — the
request currently Loading, if any, and a count of outbound network calls. -/
structure DedupState where
  inflight : Option SearchRequest
  networkCalls : Nat
deriving Repr, DecidableEq

/-- Modelled from the spec: `search(request)` under the deduplication
policy of §4.3 — invoked while a deep-equal request is already Loading it
issues no second network call; otherwise it issues one and records the
request as in flight. -/
def searchDedup (s : DedupState) (req : SearchRequest) : DedupState :=
  if s.inflight = some req then s
  else { inflight := some req, networkCalls := s.networkCalls + 1 }

/-! ## Helper lemmas -/

theorem mk_data (s : String) : String.mk s.data = s := rfl

theorem splitCommaAux_no_comma (x : List Char) :
    ∀ acc, (',' ∈ x → False) → splitCommaAux x acc = [acc.reverse ++ x] := by
  induction x with
  | nil => intro acc _; simp [splitCommaAux]
  | cons c rest ih =>
    intro acc hc
    have hcne : c ≠ ',' := fun h => hc (h ▸ List.mem_cons_self c rest)
    simp only [splitCommaAux, if_neg hcne]
    rw [ih (c :: acc) (fun h => hc (List.mem_cons_of_mem c h))]
    simp

theorem splitCommaAux_seg (x : List Char) :
    ∀ acc rest, (',' ∈ x → False) →
      splitCommaAux (x ++ ',' :: rest) acc = (acc.reverse ++ x) :: splitCommaAux rest [] := by
  induction x with
  | nil => intro acc rest _; simp [splitCommaAux]
  | cons c tail ih =>
    intro acc rest hc
    have hcne : c ≠ ',' := fun h => hc (h ▸ List.mem_cons_self c tail)
    simp only [List.cons_append, splitCommaAux, if_neg hcne, List.append_eq]
    rw [ih (c :: acc) rest (fun h => hc (List.mem_cons_of_mem c h))]
    simp

theorem splitCommaAux_intercalate (l : List (List Char)) (hne : l ≠ [])
    (hc : ∀ t ∈ l, ',' ∈ t → False) :
    splitCommaAux (List.intercalate [','] l) [] = l := by
  induction l with
  | nil => exact absurd rfl hne
  | cons x tail ih =>
    cases tail with
    | nil =>
      rw [show List.intercalate [','] [x] = x by simp [List.intercalate]]
      rw [splitCommaAux_no_comma x [] (hc x (List.mem_cons_self x []))]
      simp
    | cons y rest =>
      have hx : ',' ∈ x → False := hc x (List.mem_cons_self x (y :: rest))
      have htail : ∀ t ∈ y :: rest, ',' ∈ t → False :=
        fun t ht => hc t (List.mem_cons_of_mem x ht)
      have hjoin : List.intercalate [','] (x :: y :: rest)
          = x ++ ',' :: List.intercalate [','] (y :: rest) := by
        simp [List.intercalate, List.intersperse]
      rw [hjoin, splitCommaAux_seg x [] _ hx, ih (by simp) htail]
      simp

theorem splitComma_joinComma (l : List String) (hne : l ≠ [])
    (hc : ∀ t ∈ l, ',' ∈ t.data → False) :
    splitComma (joinComma l) = l := by
  unfold splitComma joinComma
  rw [splitCommaAux_intercalate (l.map String.data)
    (by simpa using hne)
    (by intro t ht hmem
        rcases List.mem_map.1 ht with ⟨s, hs, rfl⟩
        exact hc s hs hmem)]
  rw [List.map_map]
  have : (String.mk ∘ String.data) = id := funext fun s => mk_data s
  simp [this]

theorem scanHashtagsF_shape (fuel : Nat) :
    ∀ (l : List Char), ∀ t ∈ scanHashtagsF fuel l, t ≠ [] ∧ t.all isWordChar = true := by
  induction fuel with
  | zero => intro l t ht; simp [scanHashtagsF] at ht
  | succ fuel ih =>
    intro l t ht
    cases l with
    | nil => simp [scanHashtagsF] at ht
    | cons c rest =>
      by_cases hc : c = '#'
      · rcases hr : rest.takeWhile isWordChar with _ | ⟨a, as⟩
        · rw [scanHashtagsF, if_pos hc, hr] at ht
          exact ih rest t ht
        · rw [scanHashtagsF, if_pos hc, hr] at ht
          rcases List.mem_cons.1 ht with rfl | hmem
          · refine ⟨by simp, ?_⟩
            exact List.all_eq_true.2 fun x hx =>
              List.mem_takeWhile_imp (p := isWordChar) (l := rest) (by rw [hr]; exact hx)
          · exact ih _ t hmem
      · rw [scanHashtagsF, if_neg hc] at ht
        exact ih rest t ht

theorem lookup_build_hashtags (f : SearchFilters) :
    (buildUrlParams f).lookup "hashtags"
      = if f.hashtags.length > 0 then some (joinComma f.hashtags) else none := by
  unfold buildUrlParams
  split_ifs <;> simp_all [List.lookup]

theorem lookup_build_timeFilter (f : SearchFilters) :
    (buildUrlParams f).lookup "timeFilter"
      = if f.timeFilter ≠ "24h" then some f.timeFilter else none := by
  unfold buildUrlParams
  split_ifs <;> simp_all [List.lookup]

theorem lookup_build_location (f : SearchFilters) :
    (buildUrlParams f).lookup "location"
      = if f.location ≠ "" then some f.location else none := by
  unfold buildUrlParams
  split_ifs <;> simp_all [List.lookup]

theorem lookup_build_jobType (f : SearchFilters) :
    (buildUrlParams f).lookup "jobType"
      = if f.jobType ≠ "" then some f.jobType else none := by
  unfold buildUrlParams
  split_ifs <;> simp_all [List.lookup]

theorem lookup_build_experienceLevel (f : SearchFilters) :
    (buildUrlParams f).lookup "experienceLevel"
      = if f.experienceLevel ≠ "" then some f.experienceLevel else none := by
  unfold buildUrlParams
  split_ifs <;> simp_all [List.lookup]

theorem reflectsLatest_step (s : CoordState) (e : CoordEvent)
    (h : reflectsLatest s) : reflectsLatest (stepCoord s e) := by
  cases e with
  | submitEv =>
    intro i hi
    simp [stepCoord, submit, appliedId] at hi ⊢
    omega
  | resolveEv id o =>
    intro i hi
    by_cases hid : id = s.latestId
    · cases o <;>
        simp [stepCoord, resolveReq, hid, appliedId] at hi ⊢ <;> omega
    · simp [stepCoord, resolveReq, hid] at hi ⊢
      exact h i hi
  | resetEv =>
    intro i hi
    simp [stepCoord, resetCoord, appliedId] at hi

theorem reflectsLatest_foldl (evs : List CoordEvent) :
    ∀ (s : CoordState), reflectsLatest s → reflectsLatest (evs.foldl stepCoord s) := by
  induction evs with
  | nil => intro s h; exact h
  | cons e tail ih =>
    intro s h
    exact ih (stepCoord s e) (reflectsLatest_step s e h)

/-! ## Claim theorems -/

/-- Claim C1: with two overlapping submissions (ids 1 then 2 relative to
the starting state) whose responses arrive in order 2-then-1, the final
applied QueryState is the Success of request 2 only; and along any event
trace from the initial state, the applied QueryState carries the id of the
most recently submitted request, never an older one. -/
theorem stale_response_discarded (s0 : CoordState) (r1 r2 : SearchResult) :
    (resolveReq (resolveReq (submit (submit s0).1).1 (submit (submit s0).1).2 (Outcome.ok r2))
        (submit s0).2 (Outcome.ok r1)).query
      = QueryState.success r2 (submit (submit s0).1).2
    ∧ ∀ (evs : List CoordEvent),
        reflectsLatest (evs.foldl stepCoord { latestId := 0, query := QueryState.idle }) := by
  constructor
  · simp [submit, resolveReq]
  · intro evs
    refine reflectsLatest_foldl evs _ ?_
    intro i hi
    simp [appliedId] at hi

/-- Claim C2, counterexample: on input `"#React #react #Backend"` the
extraction of `handleSearch` returns `["React", "react", "Backend"]` —
case is preserved and duplicates-after-lower-casing are kept — not the
`["react", "backend"]` the claim requires. -/
theorem hashtag_lowercase_dedup_refuted :
    cleanedHashtags "#React #react #Backend" = ["React", "react", "Backend"]
    ∧ cleanedHashtags "#React #react #Backend" ≠ ["react", "backend"] :=
  ⟨by decide, by decide⟩

/-- Claim C2 as amended: hashtag extraction returns the `#\w+` tokens of
the input with the leading `#` stripped, in order of appearance, keeping
original case and duplicates; every returned token is a non-empty run of
word characters; input `"#React #react #Backend"` yields
`["React", "react", "Backend"]`. The function is pure. -/
theorem hashtag_extraction_tokens :
    cleanedHashtags "#React #react #Backend" = ["React", "react", "Backend"]
    ∧ ∀ (s : String), ∀ t ∈ cleanedHashtags s, t.data ≠ [] ∧ t.data.all isWordChar = true := by
  refine ⟨by decide, ?_⟩
  intro s t ht
  unfold cleanedHashtags scanHashtags at ht
  rcases List.mem_map.1 ht with ⟨run, hrun, rfl⟩
  exact scanHashtagsF_shape s.data.length s.data run hrun

/-- Claim C7, counterexample: with the default filters the derived query
parameters are empty and equal to the current (empty) URL parameters, yet
the URL-sync effect still performs a write — the effect calls
`setSearchParams` unconditionally, so the claimed string-compare guard
does not exist in the code. -/
theorem url_write_guard_refuted :
    buildUrlParams defaultFilters = [] ∧ urlSyncEffect defaultFilters [] ≠ none :=
  ⟨by decide, by decide⟩

/-- Claim C7 as amended: on every run of the URL-sync effect a URL write
is performed, carrying exactly the parameters derived from the new filter
state, regardless of whether they differ from the current URL's query
string. -/
theorem url_sync_always_writes (f : SearchFilters) (current : List (String × String)) :
    urlSyncEffect f current = some (buildUrlParams f) := rfl

/-- Claim C8, counterexample: the query client is configured with
`retry: 1`, so a failed request is attempted up to twice, not exactly
once as the claim states. -/
theorem no_retry_refuted : maxNetworkAttempts queryClientDefaultOptions ≠ 1 := by decide

/-- Claim C8 as amended: the react-query defaults perform exactly one
automatic retry per failed request (`retry: 1`, hence at most two network
attempts); the Axios response interceptor itself performs no retry,
rejecting with the original error unchanged; any further retry is a
user-initiated re-submission. -/
theorem retry_once_config :
    queryClientDefaultOptions.retry = 1
    ∧ maxNetworkAttempts queryClientDefaultOptions = 2
    ∧ ∀ (e : String), interceptorOnError e = Except.error e :=
  ⟨rfl, rfl, fun _ => rfl⟩

/-- Claim C10: both `handleFilterChange` and `handleSearch` leave
`currentPage = 1` after their state updates, whatever the previous page,
patch or search query. -/
theorem handlers_reset_page_to_one (s : JobSearchState) (patch : FilterPatch)
    (sq : Option String) :
    (handleFilterChange patch s).currentPage = 1
    ∧ (handleSearch sq s).currentPage = 1 :=
  ⟨rfl, rfl⟩

/-- Claim C3: for a request with non-empty hashtags, non-empty text,
1-based page and positive limit, `searchJobs` serializes exactly
`hashtags` (comma-joined), `q`, `limit` and `offset = (page-1)*limit`, in
that order. -/
theorem searchJobs_query_layout (p : SearchJobsParams) (h : List String) (q : String)
    (pg L : Nat) (hh : p.hashtags = some h) (hne : h ≠ []) (hq : p.q = some q)
    (hqne : q ≠ "") (hpg : p.page = some pg) (hpg1 : 1 ≤ pg)
    (hl : p.limit = some L) (hl1 : 1 ≤ L) :
    searchJobsQuery p
      = [("hashtags", joinComma h), ("q", q), ("limit", toString L),
         ("offset", toString ((pg - 1) * L))] := by
  have h0 : ¬ h.length = 0 := fun hx => hne (List.length_eq_zero.1 hx)
  have hL : ¬ L = 0 := by omega
  have hp0 : ¬ pg = 0 := by omega
  unfold searchJobsQuery
  rw [hh, hq, hpg, hl]
  simp [h0, hL, hp0, hqne]

/-- Witness for C3 at the end-to-end scenario's request shape (hashtags
`python,remote`, page 1, limit 20) with a non-empty text. -/
theorem searchJobs_query_layout_witness :
    searchJobsQuery
        { q := some "x", hashtags := some ["python", "remote"],
          page := some 1, limit := some 20 }
      = [("hashtags", "python,remote"), ("q", "x"), ("limit", "20"), ("offset", "0")] :=
  searchJobs_query_layout _ ["python", "remote"] "x" 1 20 rfl (by decide) rfl (by decide)
    rfl (by decide) rfl (by decide)

/-- Claim C4: invoking `search` while a deep-equal request is already in
flight issues no second network call — the first call increments the
outbound-call count once, and an immediately repeated identical call
leaves the state (and hence the count) unchanged. -/
theorem search_dedup_single_network_call (s : DedupState) (req : SearchRequest)
    (hfresh : s.inflight ≠ some req) :
    (searchDedup s req).networkCalls = s.networkCalls + 1
    ∧ searchDedup (searchDedup s req) req = searchDedup s req
    ∧ (searchDedup (searchDedup s req) req).networkCalls = s.networkCalls + 1 := by
  have h1 : searchDedup s req = { inflight := some req, networkCalls := s.networkCalls + 1 } := by
    unfold searchDedup
    rw [if_neg hfresh]
  have h2 : searchDedup (searchDedup s req) req = searchDedup s req := by
    rw [h1]
    unfold searchDedup
    simp
  exact ⟨by rw [h1], h2, by rw [h2, h1]⟩

/-- Witness for C4: from an idle coordinator, two rapid identical search
calls for the default filters produce exactly one outbound network call. -/
theorem search_dedup_single_network_call_witness :
    (searchDedup (⟨none, 0⟩ : DedupState) ⟨defaultFilters, "relevance", 1, 20⟩).networkCalls = 0 + 1
    ∧ searchDedup (searchDedup ⟨none, 0⟩ ⟨defaultFilters, "relevance", 1, 20⟩)
          ⟨defaultFilters, "relevance", 1, 20⟩
        = searchDedup ⟨none, 0⟩ ⟨defaultFilters, "relevance", 1, 20⟩
    ∧ (searchDedup (searchDedup ⟨none, 0⟩ ⟨defaultFilters, "relevance", 1, 20⟩)
          ⟨defaultFilters, "relevance", 1, 20⟩).networkCalls = 0 + 1 :=
  search_dedup_single_network_call ⟨none, 0⟩ ⟨defaultFilters, "relevance", 1, 20⟩ (by decide)

/-- Claim C5, counterexample: applying the patch
`{salaryMin: 900000, salaryMax: 500000}` does not swap the two values —
`handleFilterChange` spreads the patch verbatim, so the result holds
`salaryMin = 900000, salaryMax = 500000`, not the swapped pair the claim
requires. -/
theorem salary_swap_refuted :
    (handleFilterChange { salaryMin := some (some 900000), salaryMax := some (some 500000) }
        { filters := defaultFilters, sortBy := "relevance", currentPage := 5,
          isSearching := false }).filters.salaryMin = some 900000
    ∧ (handleFilterChange { salaryMin := some (some 900000), salaryMax := some (some 500000) }
        { filters := defaultFilters, sortBy := "relevance", currentPage := 5,
          isSearching := false }).filters.salaryMax = some 500000
    ∧ ¬ ((handleFilterChange { salaryMin := some (some 900000), salaryMax := some (some 500000) }
        { filters := defaultFilters, sortBy := "relevance", currentPage := 5,
          isSearching := false }).filters.salaryMin = some 500000) :=
  ⟨by decide, by decide, by decide⟩

/-- Claim C5 as amended: applying a patch carrying both salary bounds
overlays them verbatim onto the current filters — even when
`salaryMin > salaryMax` no swap, clamp or error occurs — and fields not
in the patch are kept; the previous filter value itself is never
mutated (the handler returns a fresh state). -/
theorem filter_patch_overlay_no_swap (s : JobSearchState) (a b : Int) (_hab : b < a) :
    (handleFilterChange { salaryMin := some (some a), salaryMax := some (some b) } s).filters.salaryMin
        = some a
    ∧ (handleFilterChange { salaryMin := some (some a), salaryMax := some (some b) } s).filters.salaryMax
        = some b
    ∧ (handleFilterChange { salaryMin := some (some a), salaryMax := some (some b) } s).filters.hashtags
        = s.filters.hashtags :=
  ⟨rfl, rfl, rfl⟩

/-- Witness for C5's amended statement at the spec's own example values. -/
theorem filter_patch_overlay_no_swap_witness :
    (handleFilterChange { salaryMin := some (some 900000), salaryMax := some (some 500000) }
        ⟨defaultFilters, "relevance", 5, false⟩).filters.salaryMin = some 900000
    ∧ (handleFilterChange { salaryMin := some (some 900000), salaryMax := some (some 500000) }
        ⟨defaultFilters, "relevance", 5, false⟩).filters.salaryMax = some 500000
    ∧ (handleFilterChange { salaryMin := some (some 900000), salaryMax := some (some 500000) }
        ⟨defaultFilters, "relevance", 5, false⟩).filters.hashtags
        = (⟨defaultFilters, "relevance", 5, false⟩ : JobSearchState).filters.hashtags :=
  filter_patch_overlay_no_swap ⟨defaultFilters, "relevance", 5, false⟩ 900000 500000 (by decide)

/-- Claim C6, counterexample: a filters value whose hashtag contains a
comma does not survive the round trip — serializing
`hashtags = ["a,b"]` and re-parsing yields `["a", "b"]`, which differs
from the original on the serialized `hashtags` field. -/
theorem url_roundtrip_refuted :
    (initializeFilters (buildUrlParams
        { defaultFilters with hashtags := ["a,b"] })).hashtags = ["a", "b"]
    ∧ (initializeFilters (buildUrlParams
        { defaultFilters with hashtags := ["a,b"] })).hashtags
      ≠ ({ defaultFilters with hashtags := ["a,b"] } : SearchFilters).hashtags :=
  ⟨by decide, by decide⟩

/-- Claim C6 as amended: for every filters value whose hashtags contain
no comma and whose timeFilter is non-empty, parsing the serialized query
parameters onto the defaults reconstructs the five URL-synced fields
(hashtags, timeFilter, location, jobType, experienceLevel) exactly. -/
theorem url_roundtrip_serialized_subset (f : SearchFilters)
    (hc : ∀ t ∈ f.hashtags, ',' ∈ t.data → False)
    (htf : f.timeFilter ≠ "") :
    (initializeFilters (buildUrlParams f)).hashtags = f.hashtags
    ∧ (initializeFilters (buildUrlParams f)).timeFilter = f.timeFilter
    ∧ (initializeFilters (buildUrlParams f)).location = f.location
    ∧ (initializeFilters (buildUrlParams f)).jobType = f.jobType
    ∧ (initializeFilters (buildUrlParams f)).experienceLevel = f.experienceLevel := by
  refine ⟨?_, ?_, ?_, ?_, ?_⟩
  · show (match (buildUrlParams f).lookup "hashtags" with
          | some s => splitComma s
          | none => []) = f.hashtags
    rw [lookup_build_hashtags]
    by_cases hemp : f.hashtags = []
    · simp [hemp]
    · rw [if_pos (List.length_pos.2 hemp)]
      exact splitComma_joinComma f.hashtags hemp hc
  · show (match (buildUrlParams f).lookup "timeFilter" with
          | some s => if s = "" then "24h" else s
          | none => "24h") = f.timeFilter
    rw [lookup_build_timeFilter]
    by_cases h24 : f.timeFilter = "24h"
    · simp [h24]
    · simp [h24, htf]
  · show (match (buildUrlParams f).lookup "location" with
          | some s => s
          | none => "") = f.location
    rw [lookup_build_location]
    by_cases hl : f.location = "" <;> simp [hl]
  · show (match (buildUrlParams f).lookup "jobType" with
          | some s => s
          | none => "") = f.jobType
    rw [lookup_build_jobType]
    by_cases hj : f.jobType = "" <;> simp [hj]
  · show (match (buildUrlParams f).lookup "experienceLevel" with
          | some s => s
          | none => "") = f.experienceLevel
    rw [lookup_build_experienceLevel]
    by_cases he : f.experienceLevel = "" <;> simp [he]

/-- Witness for C6's amended statement at the end-to-end scenario's
filters (`hashtags=python,remote`, `timeFilter=7d`) plus a location. -/
theorem url_roundtrip_serialized_subset_witness :
    (initializeFilters (buildUrlParams scenarioFilters)).hashtags = scenarioFilters.hashtags
    ∧ (initializeFilters (buildUrlParams scenarioFilters)).timeFilter = scenarioFilters.timeFilter
    ∧ (initializeFilters (buildUrlParams scenarioFilters)).location = scenarioFilters.location
    ∧ (initializeFilters (buildUrlParams scenarioFilters)).jobType = scenarioFilters.jobType
    ∧ (initializeFilters (buildUrlParams scenarioFilters)).experienceLevel
        = scenarioFilters.experienceLevel :=
  url_roundtrip_serialized_subset scenarioFilters (by decide) (by decide)

/-- Claim C9: whatever parameter object is passed to `searchJobs`, every
key serialized into the outbound `/jobs` query comes from
`{hashtags, q, limit, offset}` — the sources, timeFilter, location,
jobType, experienceLevel, salary bounds, skills and sortBy fields are
never serialized. -/
theorem searchJobs_query_key_whitelist (p : SearchJobsParams) :
    ∀ kv ∈ searchJobsQuery p,
      kv.1 = "hashtags" ∨ kv.1 = "q" ∨ kv.1 = "limit" ∨ kv.1 = "offset" := by
  obtain ⟨q, hs, src, tf, loc, jt, el, smin, smax, sk, sb, pg, lim⟩ := p
  intro kv hkv
  simp only [searchJobsQuery] at hkv
  rcases List.mem_append.1 hkv with h | h
  · rcases List.mem_append.1 h with h | h
    · rcases List.mem_append.1 h with h | h
      · rcases hs with _ | hs
        · simp at h
        · dsimp only at h
          split_ifs at h with hcond
          · simp at h
            subst h
            simp
          · simp at h
      · rcases q with _ | q
        · simp at h
        · dsimp only at h
          split_ifs at h with hcond
          · simp at h
            subst h
            simp
          · simp at h
    · rcases lim with _ | lim
      · simp at h
      · dsimp only at h
        split_ifs at h with hcond
        · simp at h
          subst h
          simp
        · simp at h
  · rcases pg with _ | pg
    · simp at h
    · dsimp only at h
      split_ifs at h with hcond
      · simp at h
        subst h
        simp
      · simp at h

/-- Witness for C9 at the scenario request: the `hashtags` pair emitted
for `hashtags=python,remote&limit=20&offset=0` carries a whitelisted key. -/
theorem searchJobs_query_key_whitelist_witness :
    ("hashtags", ("python,remote" : String)).1 = "hashtags"
    ∨ ("hashtags", ("python,remote" : String)).1 = "q"
    ∨ ("hashtags", ("python,remote" : String)).1 = "limit"
    ∨ ("hashtags", ("python,remote" : String)).1 = "offset" :=
  searchJobs_query_key_whitelist
    { hashtags := some ["python", "remote"], page := some 1, limit := some 20 }
    ("hashtags", "python,remote") (by decide)

end JobFinder



